import Mathlib

/-!
Verification of the chihaya BitTorrent tracker frontends
(`src/http/http.go`, `src/udp/udp.go`, `src/chihaya.go`).

The Go code is shallowly embedded: pure computations become Lean
functions, stateful code becomes explicit state passing, external
effects (disk loads, socket reads, packet handlers) are passed in as
function parameters, and durations are modelled as integers counting
seconds (Go `time.Duration` values scaled to seconds).
-/

set_option linter.unusedVariables false

namespace Chihaya

/-! ## HTTP frontend: TLS keypair reloader (`src/http/http.go`)

`keypairReloader` holds a cached certificate pair loaded from
`certPath`/`keyPath`.  The Go `*tls.Certificate` pointer is modelled as
`Option TLSCertificate` (`none` = nil pointer); the certificate value
itself is opaque for this development.  Disk access
(`tls.LoadX509KeyPair`) is passed in as a `load` function returning
`Except String TLSCertificate`. -/

/-- An opaque TLS certificate pair, as produced by `tls.LoadX509KeyPair`. -/
structure TLSCertificate where
  certId : Nat
deriving DecidableEq, Repr

/-- State of `keypairReloader` (http.go lines 29-36).  The mutex and the
timer handle carry no data relevant to the cached pair and are omitted;
`cert` models the `*tls.Certificate` field. -/
structure KeypairReloader where
  cert : Option TLSCertificate
  certPath : String
  keyPath : String
deriving DecidableEq, Repr

/-- `NewKeypairReloader` (http.go lines 38-48, the construction part):
load the pair from disk; on failure return the error, on success store
the pair in the new reloader. -/
def NewKeypairReloader (load : String → String → Except String TLSCertificate)
    (certPath keyPath : String) : Except String KeypairReloader :=
  match load certPath keyPath with
  | .error e => .error e
  | .ok cert => .ok { cert := some cert, certPath := certPath, keyPath := keyPath }

/-- `maybeReload` (http.go lines 84-93): reload the pair from disk; on
failure return the error leaving the cached pair untouched, on success
swap the cached pair (under the write lock) and return no error. -/
def maybeReload (load : String → String → Except String TLSCertificate)
    (kpr : KeypairReloader) : KeypairReloader × Option String :=
  match load kpr.certPath kpr.keyPath with
  | .error e => (kpr, some e)
  | .ok newCert => ({ kpr with cert := some newCert }, none)

/-- `GetCertificateFunc` (http.go lines 95-101): the installed
certificate supplier returns the currently cached pair under a read
lock, always with a nil error.  The `*tls.ClientHelloInfo` argument is
unused by the closure. -/
def GetCertificateFunc (kpr : KeypairReloader) (clientHello : Unit) :
    Option TLSCertificate × Option String :=
  (kpr.cert, none)

/-- One hour, in seconds (`time.Second * 3600`). -/
def oneHour : Int := 3600

/-- Six hours, in seconds: the fallback reload delay
`time.Second * 6 * 3600` (http.go line 56). -/
def defaultReloadTime : Int := 6 * 3600

/-- The reload-delay computation of the background goroutine in
`NewKeypairReloader` (http.go lines 53-62).  `parsed` is `none` when
`x509.ParseCertificate` fails and `some u` when it succeeds with
`u = time.Until(cert.NotAfter)` in seconds (possibly negative for an
expired certificate). -/
def nextReloadTime (parsed : Option Int) : Int :=
  match parsed with
  | none => defaultReloadTime
  | some untilNotAfter =>
      let rt := untilNotAfter - oneHour
      if rt < 0 then untilNotAfter else rt

/-- The reload delay as the specification sentence words it:
`max(0, not_after - 1h)` on a successful parse, the 6-hour default
otherwise.  Stated for comparison with `nextReloadTime`, which is the
translation of the source. -/
def specNextReloadTime (parsed : Option Int) : Int :=
  match parsed with
  | none => defaultReloadTime
  | some untilNotAfter => max 0 (untilNotAfter - oneHour)

/-- Reloader states reachable by the code: constructed by a successful
`NewKeypairReloader`, then any number of `maybeReload` invocations with
arbitrary disk outcomes. -/
inductive ReloaderReachable : KeypairReloader → Prop
  | boot (load : String → String → Except String TLSCertificate)
      (certPath keyPath : String) (kpr : KeypairReloader)
      (h : NewKeypairReloader load certPath keyPath = .ok kpr) :
      ReloaderReachable kpr
  | step (load : String → String → Except String TLSCertificate)
      (kpr : KeypairReloader) (h : ReloaderReachable kpr) :
      ReloaderReachable (maybeReload load kpr).1

/-! ## UDP frontend: receive loop (`src/udp/udp.go`)

The `serve` method binds a socket and then loops: check the `closing`
channel, take a buffer from the pool, set a one-second read deadline,
read a datagram, and either retry (temporary network error), return the
error (any other error), or dispatch the datagram to a handler goroutine
that replies only when the handler produced a non-empty response.

The loop is modelled as a trace: the external world supplies a list of
read outcomes (each tagged with the integer time, in seconds, at which
its iteration starts), and `serveTrace` lists the observable actions the
loop performs.  `handlePacket` is not under `src/` and is passed in as a
function from datagram bytes and sender address to response bytes. -/

/-- A UDP sender address. -/
structure UDPAddr where
  host : Nat
  port : Nat
deriving DecidableEq, Repr

/-- Outcome of one iteration of the receive loop, as seen by the loop:
either the `closing` channel is observed closed, or `ReadFromUDP`
returns a datagram, or it returns an error (`isNetError` tells whether
the Go error implements `net.Error`; `isTemporary` is its
`Temporary()`). -/
inductive ReadEvent where
  | closed
  | readOk (data : List Nat) (addr : UDPAddr)
  | readErr (isNetError isTemporary : Bool) (msg : String)
deriving DecidableEq, Repr

/-- Observable actions of the receive loop. -/
inductive ServeAction where
  | takeBuffer
  | setDeadline (t : Int)
  | giveBuffer
  | write (response : List Nat) (addr : UDPAddr)
  | halt (msg : String)
  | finish
deriving DecidableEq, Repr

/-- Capacity of the datagram buffer pool: `bufferpool.New(1000, 2048)`
(udp.go line 56). -/
def bufferPoolCapacity : Nat := 1000

/-- Size in bytes of each pooled buffer: `bufferpool.New(1000, 2048)`. -/
def bufferPoolBufferSize : Nat := 2048

/-- The per-read deadline, in seconds: `time.Now().Add(time.Second)`
(udp.go line 67). -/
def readDeadlineSeconds : Int := 1

/-- The actions of one non-`closed` iteration of the receive loop
starting at time `t` (udp.go lines 66-97): take a buffer, set the read
deadline `t + 1`, then act on the read outcome.  A temporary network
error gives the buffer back; any other error halts the loop with that
error.  A datagram is handled; the response is written back only when
non-empty, and the deferred `GiveSlice` returns the buffer. -/
def iterActions (handlePacket : List Nat → UDPAddr → List Nat)
    (t : Int) (e : ReadEvent) : List ServeAction :=
  match e with
  | .closed => [.finish]
  | .readErr isNetError isTemporary msg =>
      if isNetError && isTemporary then
        [.takeBuffer, .setDeadline (t + readDeadlineSeconds), .giveBuffer]
      else
        [.takeBuffer, .setDeadline (t + readDeadlineSeconds), .halt msg]
  | .readOk data addr =>
      let response := handlePacket data addr
      [.takeBuffer, .setDeadline (t + readDeadlineSeconds)]
        ++ (if response.isEmpty then [] else [.write response addr])
        ++ [.giveBuffer]

/-- Whether the receive loop proceeds to its next iteration after the
given read outcome: it continues after a datagram or a temporary network
error, and stops at `closed` (clean return) or at any other error
(returning it). -/
def eventContinues : ReadEvent → Bool
  | .closed => false
  | .readOk _ _ => true
  | .readErr isNetError isTemporary _ => isNetError && isTemporary

/-- The full trace of the receive loop over a list of timed read
outcomes. -/
def serveTrace (handlePacket : List Nat → UDPAddr → List Nat) :
    List (Int × ReadEvent) → List ServeAction
  | [] => []
  | (t, e) :: rest =>
      iterActions handlePacket t e
        ++ (if eventContinues e then serveTrace handlePacket rest else [])

/-- State of the UDP `Server` relevant to booting (udp.go lines 23-32):
`sock` is `some fd` once the socket is bound, the two channels are
tracked by whether they have been closed. -/
structure UDPServer where
  listenAddr : String
  sock : Option Nat
  bootingClosed : Bool
  closingClosed : Bool
deriving DecidableEq, Repr

/-- `Server.serve` (udp.go lines 34-101).  External effects are passed
in: `resolve` models `net.ResolveUDPAddr`, `listen` models
`net.ListenUDP` (returning a socket descriptor), `handlePacket` and
`events` drive the receive loop as in `serveTrace`.  Returns the final
server state, the error returned by `serve` (`none` for a clean return),
and the trace of loop actions.  If the socket is already set, the method
returns the error `"server already booted"` at once. -/
def serve (resolve : String → Except String UDPAddr)
    (listen : UDPAddr → Except String Nat)
    (handlePacket : List Nat → UDPAddr → List Nat)
    (events : List (Int × ReadEvent))
    (s : UDPServer) : UDPServer × Option String × List ServeAction :=
  if s.sock.isSome then
    (s, some "server already booted", [])
  else
    match resolve s.listenAddr with
    | .error e => ({ s with bootingClosed := true }, some e, [])
    | .ok udpAddr =>
        match listen udpAddr with
        | .error e => ({ s with bootingClosed := true }, some e, [])
        | .ok fd =>
            let s := { s with sock := some fd, bootingClosed := true }
            let trace := serveTrace handlePacket events
            let err := (trace.filterMap fun a =>
              match a with
              | .halt m => some m
              | _ => none).head?
            (s, err, trace)

/-! ## UDP frontend: connection-ID key rotation (`src/udp/udp.go`)

`Server.Serve` (udp.go lines 104-125) spawns a goroutine that loops on a
`select`: when `closing` is closed it returns; otherwise after
`time.Hour` elapses it calls `connIDGen.NewIV()`.  `Stop` (lines
128-132) closes `closing`.  The goroutine is modelled as a step relation
in which each step stands for one elapsed rotation interval. -/

/-- Modelled from the spec: `ConnectionIDGenerator` and its `NewIV`
method are not under `src/`.  Per the spec (§4.6), the generator keeps a
current and a previous key, and rotation promotes current→previous and
generates a fresh current. -/
structure ConnectionIDGenerator where
  currentIV : Nat
  previousIV : Nat
deriving DecidableEq, Repr

/-- Modelled from the spec: rotation promotes the current key to
previous and installs a freshly generated key `fresh` as current. -/
def NewIV (fresh : Nat) (g : ConnectionIDGenerator) : ConnectionIDGenerator :=
  { currentIV := fresh, previousIV := g.currentIV }

/-- The rotation interval of the goroutine in `Server.Serve`, in
seconds: `time.After(time.Hour)` (udp.go line 114). -/
def rotationIntervalSeconds : Int := 3600

/-- State observed by the rotation goroutine: whether `closing` has been
closed, the generator, and a count of rotations performed. -/
structure RotationState where
  stopped : Bool
  gen : ConnectionIDGenerator
  rotations : Nat
deriving DecidableEq, Repr

/-- One iteration of the rotation goroutine, standing for one elapsed
rotation interval: if `closing` is closed the goroutine returns (no
rotation); otherwise `NewIV` rotates the generator, installing the
freshly generated key `fresh`. -/
def rotationStep (fresh : Nat) (st : RotationState) : RotationState :=
  if st.stopped then st
  else { st with gen := NewIV fresh st.gen, rotations := st.rotations + 1 }

/-- Run the rotation goroutine across a list of elapsed intervals, the
list supplying the fresh key for each. -/
def runRotation : List Nat → RotationState → RotationState
  | [], st => st
  | f :: fs, st => runRotation fs (rotationStep f st)

/-- `Server.Stop` (udp.go lines 128-132), as seen by the rotation
goroutine: `close(s.closing)`. -/
def stopRotation (st : RotationState) : RotationState :=
  { st with stopped := true }

/-! ## HTTP frontend: handler wrapping (`src/http/http.go`)

`makeHandler` (http.go lines 117-156) wraps a `ResponseHandler`
returning `(httpCode, err)`.  When the handler reported an error or a
non-OK code, `http.Error` writes that message with that status;
otherwise the bytes the handler already wrote to the `ResponseWriter`
stand. -/

/-- An HTTP response as observed by the client: status code and body. -/
structure HTTPResponse where
  status : Nat
  body : String
deriving DecidableEq, Repr

/-- What a `ResponseHandler` invocation produced: the response it wrote
itself to the `ResponseWriter` (if any), and the `(httpCode, err)` pair
it returned (`err` as `Option String`). -/
structure HandlerOutcome where
  written : Option HTTPResponse
  httpCode : Nat
  err : Option String
deriving DecidableEq, Repr

/-- `makeHandler` (http.go lines 117-156), restricted to the response
the client sees: `msg` is the error text, or `http.StatusText(httpCode)`
when the code is non-OK without an error; a non-empty `msg` is written
by `http.Error` with `httpCode`, otherwise whatever the handler wrote
stands (an empty 200 when it wrote nothing).  `statusText` models Go
`http.StatusText`. -/
def makeHandler (statusText : Nat → String) (o : HandlerOutcome) : HTTPResponse :=
  let msg :=
    match o.err with
    | some e => e
    | none => if o.httpCode ≠ 200 then statusText o.httpCode else ""
  if msg.length > 0 then { status := o.httpCode, body := msg }
  else (o.written).getD { status := 200, body := "" }

/-- Result of the tracker engine for one announce or scrape request, as
the frontend sees it. -/
inductive TrackerResult where
  | ok (body : String)
  | clientError (msg : String)
  | transportError (code : Nat) (msg : String)
deriving DecidableEq, Repr

/-- The bencoded dictionary `{ "failure reason": "<msg>" }`. -/
def bencodeFailure (msg : String) : String :=
  "d14:failure reason" ++ toString msg.length ++ ":" ++ msg ++ "e"

/-- Modelled from the spec: the announce/scrape `ResponseHandler`s
(`serveAnnounce`, `serveScrape` and their bencode writer) are not under
`src/`.  Per the spec (§7), a client-visible tracker error is written by
the handler itself as the bencoded `{ "failure reason": "<msg>" }` with
HTTP 200 and `(200, nil)` returned to the wrapper; a successful request
is written with HTTP 200; a transport-level failure writes nothing and
returns its 4xx/5xx code with a non-nil error. -/
def specResponseHandler (res : TrackerResult) : HandlerOutcome :=
  match res with
  | .ok body =>
      { written := some { status := 200, body := body }, httpCode := 200, err := none }
  | .clientError msg =>
      { written := some { status := 200, body := bencodeFailure msg },
        httpCode := 200, err := none }
  | .transportError code msg =>
      { written := none, httpCode := code, err := some msg }

/-- The response the client sees for a given engine result: the
spec-modelled handler composed with the wrapper from the source. -/
def handleRequest (statusText : Nat → String) (res : TrackerResult) : HTTPResponse :=
  makeHandler statusText (specResponseHandler res)

/-! ## HTTP frontend: connection multiplexing (`src/http/http.go`)

`Server.Serve` (http.go lines 204-261) opens one TCP listener, wraps it
in a `cmux`, and registers matchers in order: `cmux.HTTP1Fast()` for the
plain HTTP server always, and — only when both a certificate path and a
key path are configured — `cmux.Any()` for the TLS server.  cmux peeks
at the first received bytes of each connection and hands it to the first
matcher that accepts them; a connection no matcher accepts is not routed
to either server. -/

/-- Where a multiplexed connection is routed. -/
inductive Route where
  | plainHTTP
  | tlsServer
  | noMatch
deriving DecidableEq, Repr

/-- The HTTP/1 methods recognised by `cmux.HTTP1Fast()`. -/
def http1Methods : List String :=
  ["OPTIONS", "GET", "HEAD", "POST", "PUT", "DELETE", "TRACE", "CONNECT"]

/-- `cmux.HTTP1Fast()`: the first received bytes begin with an HTTP/1
method followed by a space. -/
def http1Fast (firstBytes : String) : Bool :=
  http1Methods.any fun m => List.isPrefixOf (m ++ " ").data firstBytes.data

/-- `cmux.Any()`: matches every connection. -/
def cmuxAny (firstBytes : String) : Bool := true

/-- cmux dispatch: the connection goes to the first registered matcher
accepting its first bytes. -/
def cmuxRoute (matchers : List (Route × (String → Bool)))
    (firstBytes : String) : Route :=
  match matchers with
  | [] => .noMatch
  | (r, m) :: rest => if m firstBytes then r else cmuxRoute rest firstBytes

/-- The matcher list `Server.Serve` registers (http.go lines 217-237):
`HTTP1Fast` to the plain HTTP server first, then `Any` to the TLS server
only when both `TLSCertPath` and `TLSKeyPath` are non-empty. -/
def serveMatchers (tlsCertPath tlsKeyPath : String) :
    List (Route × (String → Bool)) :=
  (Route.plainHTTP, http1Fast) ::
    (if tlsCertPath ≠ "" ∧ tlsKeyPath ≠ "" then [(Route.tlsServer, cmuxAny)] else [])

/-- Routing decision of the HTTP frontend for a connection whose first
received bytes are `firstBytes`. -/
def routeConnection (tlsCertPath tlsKeyPath : String)
    (firstBytes : String) : Route :=
  cmuxRoute (serveMatchers tlsCertPath tlsKeyPath) firstBytes

/-! ## Helper lemmas -/

/-- Every state the reloader can reach holds a loaded (non-nil)
certificate pair. -/
theorem reloaderReachable_cert_isSome (kpr : KeypairReloader)
    (h : ReloaderReachable kpr) : ∃ c, kpr.cert = some c := by
  induction h with
  | boot load certPath keyPath kpr hboot =>
      unfold NewKeypairReloader at hboot
      cases hl : load certPath keyPath with
      | error e => rw [hl] at hboot; cases hboot
      | ok c =>
          rw [hl] at hboot
          cases hboot
          exact ⟨c, rfl⟩
  | step load kpr h ih =>
      unfold maybeReload
      cases hl : load kpr.certPath kpr.keyPath with
      | error e => simpa using ih
      | ok c => exact ⟨c, rfl⟩

/-! ## Claims -/

/-- Claim C1, counterexample: with a successfully parsed leaf
certificate expiring 1800 seconds (half an hour) from now, the code
schedules the reload 1800 seconds out — the fallback branch reuses the
full remaining lifetime — whereas the claimed formula
`max(0, not_after - 1h)` gives 0. -/
theorem c1_reload_delay_counterexample :
    nextReloadTime (some 1800) = 1800 ∧ specNextReloadTime (some 1800) = 0 ∧
      nextReloadTime (some 1800) ≠ specNextReloadTime (some 1800) := by
  refine ⟨rfl, rfl, ?_⟩
  decide

/-- Claim C1 (amended): for every successfully loaded keypair, the
background task computes the delay until the next reload as
`not_after - 1h` when the leaf certificate parses and at least one hour
of lifetime remains, as the full remaining lifetime `not_after - now`
when less than one hour remains, and as a 6-hour default when parsing
fails; after sleeping it reloads the pair from disk and, on success,
swaps the cached pair under the write lock. -/
theorem c1_reload_delay_and_swap (u : Int)
    (load : String → String → Except String TLSCertificate)
    (kpr : KeypairReloader) (c : TLSCertificate)
    (hload : load kpr.certPath kpr.keyPath = .ok c) :
    nextReloadTime none = defaultReloadTime
    ∧ (oneHour ≤ u → nextReloadTime (some u) = u - oneHour)
    ∧ (u < oneHour → nextReloadTime (some u) = u)
    ∧ (maybeReload load kpr).1.cert = some c := by
  refine ⟨rfl, ?_, ?_, ?_⟩
  · intro h
    simp only [nextReloadTime]
    rw [if_neg (by omega)]
  · intro h
    simp only [nextReloadTime]
    rw [if_pos (by omega)]
  · simp [maybeReload, hload]

/-- Claim C1, witness: concrete instances of the amended statement. -/
theorem c1_reload_delay_and_swap_witness :
    nextReloadTime (some 7200) = 7200 - oneHour
    ∧ (maybeReload (fun _ _ => .ok ⟨5⟩)
        ⟨some ⟨1⟩, "cert.pem", "key.pem"⟩).1.cert = some ⟨5⟩ :=
  ⟨(c1_reload_delay_and_swap 7200 (fun _ _ => .ok ⟨5⟩)
      ⟨some ⟨1⟩, "cert.pem", "key.pem"⟩ ⟨5⟩ rfl).2.1 (by decide),
   (c1_reload_delay_and_swap 7200 (fun _ _ => .ok ⟨5⟩)
      ⟨some ⟨1⟩, "cert.pem", "key.pem"⟩ ⟨5⟩ rfl).2.2.2⟩

/-- Claim C3: whenever loading the keypair from disk fails, `maybeReload`
leaves the cached pair (indeed the whole reloader state) unchanged and
reports the load error; the cached pair changes only when loading
succeeds, and then it becomes the newly loaded pair. -/
theorem c3_reload_failure_retains_old_pair
    (load : String → String → Except String TLSCertificate)
    (kpr : KeypairReloader) :
    (∀ e, load kpr.certPath kpr.keyPath = .error e →
      (maybeReload load kpr).1 = kpr ∧ (maybeReload load kpr).2 = some e)
    ∧ ((maybeReload load kpr).1.cert ≠ kpr.cert →
      ∃ c, load kpr.certPath kpr.keyPath = .ok c
        ∧ (maybeReload load kpr).1.cert = some c) := by
  cases hl : load kpr.certPath kpr.keyPath with
  | error e =>
      refine ⟨?_, ?_⟩
      · intro e' he'
        simp only [Except.error.injEq] at he'
        subst he'
        simp [maybeReload, hl]
      · intro hne
        exact absurd (by simp [maybeReload, hl]) hne
  | ok c =>
      refine ⟨?_, ?_⟩
      · intro e' he'
        simp at he'
      · intro _
        exact ⟨c, rfl, by simp [maybeReload, hl]⟩

/-- Claim C3, witness: a failing disk load at a concrete reloader state
retains the old pair and returns the error. -/
theorem c3_reload_failure_retains_old_pair_witness :
    (maybeReload (fun _ _ => .error "no such file")
        ⟨some ⟨1⟩, "cert.pem", "key.pem"⟩).1 = ⟨some ⟨1⟩, "cert.pem", "key.pem"⟩
    ∧ (maybeReload (fun _ _ => .error "no such file")
        ⟨some ⟨1⟩, "cert.pem", "key.pem"⟩).2 = some "no such file" :=
  (c3_reload_failure_retains_old_pair (fun _ _ => .error "no such file")
    ⟨some ⟨1⟩, "cert.pem", "key.pem"⟩).1 "no such file" rfl

/-- Claim C10: on every reachable reloader state (constructed by a
successful `NewKeypairReloader`, then arbitrarily reloaded), the
installed certificate supplier returns the currently cached certificate,
which is non-nil, together with a nil error — for every
`ClientHelloInfo` input. -/
theorem c10_get_certificate_func (kpr : KeypairReloader) (hello : Unit)
    (h : ReloaderReachable kpr) :
    (GetCertificateFunc kpr hello).1 = kpr.cert
    ∧ (∃ c, (GetCertificateFunc kpr hello).1 = some c)
    ∧ (GetCertificateFunc kpr hello).2 = none :=
  ⟨rfl, reloaderReachable_cert_isSome kpr h, rfl⟩

/-- Claim C10, witness: a concrete reloader constructed by
`NewKeypairReloader` supplies its cached certificate with a nil error. -/
theorem c10_get_certificate_func_witness :
    (GetCertificateFunc ⟨some ⟨0⟩, "cert.pem", "key.pem"⟩ ()).1
        = (⟨some ⟨0⟩, "cert.pem", "key.pem"⟩ : KeypairReloader).cert
    ∧ (∃ c, (GetCertificateFunc ⟨some ⟨0⟩, "cert.pem", "key.pem"⟩ ()).1 = some c)
    ∧ (GetCertificateFunc ⟨some ⟨0⟩, "cert.pem", "key.pem"⟩ ()).2 = none :=
  c10_get_certificate_func ⟨some ⟨0⟩, "cert.pem", "key.pem"⟩ ()
    (ReloaderReachable.boot (fun _ _ => .ok ⟨0⟩) "cert.pem" "key.pem" _ rfl)

/-- A rotation step on a non-stopped state performs exactly one `NewIV`
rotation and stays non-stopped. -/
theorem rotationStep_not_stopped (f : Nat) (st : RotationState)
    (h : st.stopped = false) :
    rotationStep f st
      = { stopped := false, gen := NewIV f st.gen, rotations := st.rotations + 1 } := by
  simp [rotationStep, h]

/-- While the goroutine has not been stopped, each elapsed interval
rotates exactly once. -/
theorem runRotation_rotations (fs : List Nat) (st : RotationState)
    (h : st.stopped = false) :
    (runRotation fs st).rotations = st.rotations + fs.length := by
  induction fs generalizing st with
  | nil => simp [runRotation]
  | cons f fs ih =>
      rw [runRotation, rotationStep_not_stopped f st h, ih _ rfl]
      simp
      omega

/-- Once `closing` is closed, the rotation goroutine never changes the
state again. -/
theorem runRotation_stopped (gs : List Nat) (st : RotationState)
    (h : st.stopped = true) :
    runRotation gs st = st := by
  induction gs with
  | nil => rfl
  | cons g gs ih => rw [runRotation, rotationStep, if_pos h, ih]

/-- Claim C2: while the UDP server is serving and not stopped, the
connection-ID generator is rotated (current promoted to previous, a
fresh IV installed) exactly once per elapsed rotation interval, the
interval being one hour; after `Stop` closes `closing`, no further
rotation occurs. -/
theorem c2_key_rotation (st : RotationState) (fs gs : List Nat) (f : Nat)
    (h : st.stopped = false) :
    (runRotation fs st).rotations = st.rotations + fs.length
    ∧ (rotationStep f st).gen = NewIV f st.gen
    ∧ (rotationStep f st).gen.previousIV = st.gen.currentIV
    ∧ runRotation gs (stopRotation st) = stopRotation st
    ∧ rotationIntervalSeconds = 3600 := by
  refine ⟨runRotation_rotations fs st h, ?_, ?_, ?_, rfl⟩
  · rw [rotationStep_not_stopped f st h]
  · rw [rotationStep_not_stopped f st h]
    simp [NewIV]
  · exact runRotation_stopped gs (stopRotation st) rfl

/-- Claim C2, witness: two elapsed intervals rotate twice from a fresh
state; no interval elapsing after `Stop` rotates. -/
theorem c2_key_rotation_witness :
    (runRotation [7, 8] ⟨false, ⟨1, 0⟩, 0⟩).rotations
        = (⟨false, ⟨1, 0⟩, 0⟩ : RotationState).rotations + [7, 8].length
    ∧ runRotation [9] (stopRotation ⟨false, ⟨1, 0⟩, 0⟩)
        = stopRotation ⟨false, ⟨1, 0⟩, 0⟩ :=
  ⟨(c2_key_rotation ⟨false, ⟨1, 0⟩, 0⟩ [7, 8] [9] 7 rfl).1,
   (c2_key_rotation ⟨false, ⟨1, 0⟩, 0⟩ [7, 8] [9] 7 rfl).2.2.2.1⟩

/-- Claim C5: a temporary network error in the receive loop returns the
buffer to the pool and continues reading, while any other read error
terminates the loop, the `serve` call returning that error. -/
theorem c5_read_error_handling (handlePacket : List Nat → UDPAddr → List Nat)
    (events : List (Int × ReadEvent)) (t : Int)
    (isNetError isTemporary : Bool) (msg : String) :
    ((isNetError && isTemporary) = true →
      serveTrace handlePacket ((t, .readErr isNetError isTemporary msg) :: events)
        = [.takeBuffer, .setDeadline (t + readDeadlineSeconds), .giveBuffer]
            ++ serveTrace handlePacket events)
    ∧ ((isNetError && isTemporary) = false →
      serveTrace handlePacket ((t, .readErr isNetError isTemporary msg) :: events)
        = [.takeBuffer, .setDeadline (t + readDeadlineSeconds), .halt msg])
    ∧ ((isNetError && isTemporary) = false →
      ∀ (s : UDPServer) (a : UDPAddr) (fd : Nat), s.sock = none →
        (serve (fun _ => .ok a) (fun _ => .ok fd) handlePacket
          ((t, .readErr isNetError isTemporary msg) :: events) s).2.1 = some msg) := by
  refine ⟨?_, ?_, ?_⟩
  · intro h
    simp [serveTrace, iterActions, eventContinues, h]
  · intro h
    simp [serveTrace, iterActions, eventContinues, h]
  · intro h s a fd hs
    have hs2 : s.sock.isSome = false := by simp [hs]
    simp [serve, hs2, serveTrace, iterActions, eventContinues, h]

/-- Claim C5, witness: a concrete temporary timeout is retried with the
buffer given back; a concrete permanent error halts the loop and is
returned by `serve`. -/
theorem c5_read_error_handling_witness :
    serveTrace (fun _ _ => []) [((0 : Int), .readErr true true "timeout")]
      = [.takeBuffer, .setDeadline (0 + readDeadlineSeconds), .giveBuffer]
          ++ serveTrace (fun _ _ => []) []
    ∧ (serve (fun _ => .ok ⟨0, 0⟩) (fun _ => .ok 3) (fun _ _ => [])
        [((0 : Int), .readErr false false "connection closed")]
        ⟨"addr", none, false, false⟩).2.1 = some "connection closed" :=
  ⟨(c5_read_error_handling (fun _ _ => []) [] 0 true true "timeout").1 rfl,
   (c5_read_error_handling (fun _ _ => []) [] 0 false false "connection closed").2.2
     rfl ⟨"addr", none, false, false⟩ ⟨0, 0⟩ 3 rfl⟩

/-- No `write` action appears among the actions of one loop iteration
unless its response is non-empty (and then it is the handler's output
for that datagram). -/
theorem write_mem_iterActions (handlePacket : List Nat → UDPAddr → List Nat)
    (t : Int) (e : ReadEvent) (response : List Nat) (addr : UDPAddr)
    (h : ServeAction.write response addr ∈ iterActions handlePacket t e) :
    response ≠ [] := by
  cases e with
  | closed => simp [iterActions] at h
  | readErr isNetError isTemporary msg =>
      by_cases hnt : (isNetError && isTemporary) = true <;>
        simp [iterActions, hnt] at h
  | readOk data a =>
      cases hr : handlePacket data a with
      | nil => simp [iterActions, hr] at h
      | cons x xs =>
          simp [iterActions, hr] at h
          obtain ⟨h1, -⟩ := h
          simp [h1]

/-- Claim C6: the UDP server never writes a reply datagram whose payload
is empty — every `write` in any receive-loop trace carries a non-empty
response, so a datagram whose handling produced an empty response (as
for undersized or malformed packets) is answered with nothing. -/
theorem c6_no_empty_reply (handlePacket : List Nat → UDPAddr → List Nat)
    (events : List (Int × ReadEvent)) (response : List Nat) (addr : UDPAddr)
    (h : ServeAction.write response addr ∈ serveTrace handlePacket events) :
    response ≠ [] := by
  induction events with
  | nil => simp [serveTrace] at h
  | cons te rest ih =>
      obtain ⟨t, e⟩ := te
      rw [serveTrace] at h
      rcases List.mem_append.mp h with h1 | h2
      · exact write_mem_iterActions handlePacket t e response addr h1
      · by_cases hc : eventContinues e = true
        · rw [if_pos hc] at h2
          exact ih h2
        · rw [if_neg hc] at h2
          simp at h2

/-- Claim C6, witness: in a trace where one datagram is handled with an
empty response and one with `[1]`, the only write carries `[1]`, which
is non-empty. -/
theorem c6_no_empty_reply_witness :
    ServeAction.write [1] ⟨7, 7⟩
        ∈ serveTrace (fun data _ => if data = [2] then [1] else [])
          [((0 : Int), .readOk [9] ⟨5, 5⟩), ((1 : Int), .readOk [2] ⟨7, 7⟩)]
    ∧ ([1] : List Nat) ≠ [] :=
  ⟨by decide,
   c6_no_empty_reply (fun data _ => if data = [2] then [1] else [])
     [((0 : Int), .readOk [9] ⟨5, 5⟩), ((1 : Int), .readOk [2] ⟨7, 7⟩)]
     [1] ⟨7, 7⟩ (by decide)⟩

/-- Claim C7: the receive loop's buffer pool is created with capacity
1000 and buffer size 2048 bytes, and every iteration that reaches the
read first takes a buffer and sets the read deadline one second after
the iteration's current time — and no other deadline is ever set in the
iteration. -/
theorem c7_pool_and_deadline (handlePacket : List Nat → UDPAddr → List Nat)
    (t : Int) (e : ReadEvent) (h : e ≠ .closed) :
    bufferPoolCapacity = 1000
    ∧ bufferPoolBufferSize = 2048
    ∧ readDeadlineSeconds = 1
    ∧ (iterActions handlePacket t e).take 2
        = [ServeAction.takeBuffer, ServeAction.setDeadline (t + readDeadlineSeconds)]
    ∧ (∀ d, ServeAction.setDeadline d ∈ iterActions handlePacket t e →
        d = t + readDeadlineSeconds) := by
  refine ⟨rfl, rfl, rfl, ?_, ?_⟩
  · cases e with
    | closed => exact absurd rfl h
    | readErr isNetError isTemporary msg =>
        by_cases hnt : (isNetError && isTemporary) = true <;>
          simp [iterActions, hnt]
    | readOk data a =>
        cases hr : handlePacket data a <;> simp [iterActions, hr]
  · intro d hd
    cases e with
    | closed => exact absurd rfl h
    | readErr isNetError isTemporary msg =>
        by_cases hnt : (isNetError && isTemporary) = true <;>
          simp [iterActions, hnt] at hd <;> omega
    | readOk data a =>
        cases hr : handlePacket data a <;> simp [iterActions, hr] at hd <;> omega

/-- Claim C7, witness: a concrete iteration starting at time 5 takes a
buffer and then sets the deadline 6. -/
theorem c7_pool_and_deadline_witness :
    bufferPoolCapacity = 1000
    ∧ bufferPoolBufferSize = 2048
    ∧ (iterActions (fun _ _ => []) 5 (.readOk [9] ⟨5, 5⟩)).take 2
        = [ServeAction.takeBuffer, ServeAction.setDeadline (5 + readDeadlineSeconds)] :=
  ⟨(c7_pool_and_deadline (fun _ _ => []) 5 (.readOk [9] ⟨5, 5⟩) (by simp)).1,
   (c7_pool_and_deadline (fun _ _ => []) 5 (.readOk [9] ⟨5, 5⟩) (by simp)).2.1,
   (c7_pool_and_deadline (fun _ _ => []) 5 (.readOk [9] ⟨5, 5⟩) (by simp)).2.2.2.1⟩

/-- Claim C9: calling `serve` on a server whose socket is already set
returns the error `"server already booted"` immediately, leaves the
server state unchanged, performs no loop action, and consults neither
the resolver nor the binder (the outcome is identical for any choice of
them). -/
theorem c9_already_booted
    (resolve resolve' : String → Except String UDPAddr)
    (listen listen' : UDPAddr → Except String Nat)
    (handlePacket handlePacket' : List Nat → UDPAddr → List Nat)
    (events events' : List (Int × ReadEvent))
    (s : UDPServer) (fd : Nat) (h : s.sock = some fd) :
    serve resolve listen handlePacket events s
        = (s, some "server already booted", [])
    ∧ serve resolve listen handlePacket events s
        = serve resolve' listen' handlePacket' events' s := by
  have hs : s.sock.isSome = true := by simp [h]
  constructor <;> simp [serve, hs]

/-- Claim C9, witness: a concrete already-booted server is rejected with
`"server already booted"` and left unchanged, whatever the resolver and
binder would do. -/
theorem c9_already_booted_witness :
    serve (fun _ => .ok ⟨0, 0⟩) (fun _ => .ok 9) (fun _ _ => []) []
        ⟨"addr", some 3, true, false⟩
      = (⟨"addr", some 3, true, false⟩, some "server already booted", [])
    ∧ serve (fun _ => .ok ⟨0, 0⟩) (fun _ => .ok 9) (fun _ _ => []) []
        ⟨"addr", some 3, true, false⟩
      = serve (fun _ => .error "dns down") (fun _ => .error "bind failed")
          (fun _ _ => [1]) [((0 : Int), .closed)] ⟨"addr", some 3, true, false⟩ :=
  c9_already_booted (fun _ => .ok ⟨0, 0⟩) (fun _ => .error "dns down")
    (fun _ => .ok 9) (fun _ => .error "bind failed") (fun _ _ => [])
    (fun _ _ => [1]) [] [((0 : Int), .closed)] ⟨"addr", some 3, true, false⟩ 3 rfl

/-- A non-empty string has positive length. -/
theorem string_length_pos_of_ne_empty (s : String) (h : s ≠ "") :
    0 < s.length := by
  rcases s with ⟨data⟩
  cases data with
  | nil => exact absurd rfl h
  | cons c cs => simp [String.length]

/-- Claim C4: a client-visible tracker error is answered with the
bencoded dictionary `{ "failure reason": "<msg>" }` and HTTP status 200,
while a transport-level failure (a 4xx/5xx code with a non-empty error
message) is answered by `http.Error` with that 4xx/5xx status. -/
theorem c4_error_encoding (statusText : Nat → String) (msg emsg : String)
    (code : Nat) (hmsg : emsg ≠ "") (h4 : 400 ≤ code) (h6 : code ≤ 599) :
    handleRequest statusText (.clientError msg)
        = { status := 200, body := bencodeFailure msg }
    ∧ (handleRequest statusText (.transportError code emsg)).status = code
    ∧ 400 ≤ (handleRequest statusText (.transportError code emsg)).status
    ∧ (handleRequest statusText (.transportError code emsg)).status ≠ 200 := by
  have hlen : 0 < emsg.length := string_length_pos_of_ne_empty emsg hmsg
  refine ⟨?_, ?_, ?_, ?_⟩
  · simp [handleRequest, specResponseHandler, makeHandler]
  · simp [handleRequest, specResponseHandler, makeHandler, hlen]
  · simp [handleRequest, specResponseHandler, makeHandler, hlen]
    omega
  · simp [handleRequest, specResponseHandler, makeHandler, hlen]
    omega

/-- Claim C4, witness: a concrete tracker error bencoded with 200, and a
concrete internal failure answered with 500. -/
theorem c4_error_encoding_witness :
    handleRequest (fun _ => "") (.clientError "torrent not found")
        = { status := 200, body := bencodeFailure "torrent not found" }
    ∧ (handleRequest (fun _ => "") (.transportError 500 "io error")).status = 500 :=
  ⟨(c4_error_encoding (fun _ => "") "torrent not found" "io error" 500
      (by decide) (by decide) (by decide)).1,
   (c4_error_encoding (fun _ => "") "torrent not found" "io error" 500
      (by decide) (by decide) (by decide)).2.1⟩

/-- Claim C8: the single multiplexed listener routes a connection whose
first bytes form an HTTP/1 method line to the plain HTTP server, and —
when both a certificate path and a key path are configured — every other
connection to the TLS server; when either path is missing, the TLS
matcher is not registered at all, and non-HTTP/1 connections match no
server. -/
theorem c8_connection_multiplexing (tlsCertPath tlsKeyPath firstBytes : String)
    (hcert : tlsCertPath ≠ "") (hkey : tlsKeyPath ≠ "") :
    (http1Fast firstBytes = true →
      ∀ c k, routeConnection c k firstBytes = .plainHTTP)
    ∧ (http1Fast firstBytes = false →
      routeConnection tlsCertPath tlsKeyPath firstBytes = .tlsServer)
    ∧ (∀ k, serveMatchers "" k = [(Route.plainHTTP, http1Fast)])
    ∧ (∀ c, serveMatchers c "" = [(Route.plainHTTP, http1Fast)])
    ∧ (http1Fast firstBytes = false →
      ∀ k, routeConnection "" k firstBytes = .noMatch) := by
  refine ⟨?_, ?_, ?_, ?_, ?_⟩
  · intro h c k
    simp [routeConnection, serveMatchers, cmuxRoute, h]
  · intro h
    simp [routeConnection, serveMatchers, cmuxRoute, cmuxAny, h, hcert, hkey]
  · intro k
    simp [serveMatchers]
  · intro c
    simp [serveMatchers]
  · intro h k
    simp [routeConnection, serveMatchers, cmuxRoute, h]

/-- Claim C8, witness: with TLS configured, a concrete HTTP/1 request
line routes to the plain server and a concrete TLS client-hello byte
routes to the TLS server; with no certificate path, the matcher list has
no TLS entry. -/
theorem c8_connection_multiplexing_witness :
    routeConnection "cert.pem" "key.pem" "GET /announce?info_hash=x HTTP/1.1"
        = Route.plainHTTP
    ∧ routeConnection "cert.pem" "key.pem" "\x16\x03\x01" = Route.tlsServer
    ∧ serveMatchers "" "key.pem" = [(Route.plainHTTP, http1Fast)] :=
  ⟨(c8_connection_multiplexing "cert.pem" "key.pem"
      "GET /announce?info_hash=x HTTP/1.1" (by decide) (by decide)).1
      (by decide) "cert.pem" "key.pem",
   (c8_connection_multiplexing "cert.pem" "key.pem" "\x16\x03\x01"
      (by decide) (by decide)).2.1 (by decide),
   (c8_connection_multiplexing "cert.pem" "key.pem" "\x16\x03\x01"
      (by decide) (by decide)).2.2.1 "key.pem"⟩

end Chihaya
